import Mathlib

/-!
# Verification of the node-appletv session engine (`src/lib/appletv.ts`)

A shallow embedding of the `AppleTV` session-engine class. Asynchronous
methods become explicit state-passing functions over an `EngineState`
that records the trace of outbound sends; the results of awaited external
steps (transport open, introduction acknowledgement, verification) are
supplied by an oracle so that every control path of `openConnection` is
represented. The `EventEmitter` listener machinery is modelled as a small
transition system over listener counts, and the `messageOfType`
wait/timeout machinery as a step relation on a pending-wait table.
-/

namespace AppleTVSpec

/-- Protobuf message types used by the engine (`Message.Type` values that
appear in `appletv.ts`). -/
inductive MessageType where
  | DeviceInfoMessage
  | SetConnectionStateMessage
  | ClientUpdatesConfigMessage
  | SendHIDEventMessage
  | PlaybackQueueRequestMessage
  | SetStateMessage
  | WakeDeviceMessage
  | CryptoPairingMessage
  deriving DecidableEq, Repr

/-- Session keys derived by the verification exchange
(`verifier.verify()` returns `{readKey, writeKey}`). -/
structure Keys where
  readKey : Nat
  writeKey : Nat
  deriving DecidableEq, Repr

/-- The caller-owned `Credentials` record: a pairing identity plus the
read/write keys, absent until verification installs them. -/
structure Credentials where
  pairingId : String
  readKey : Option Nat := none
  writeKey : Option Nat := none
  deriving DecidableEq, Repr

/-- `Size` from `appletv.ts` (artwork dimensions; the polling tick uses
width `-1`, hence `Int`). -/
structure Size where
  width : Int
  height : Int
  deriving DecidableEq, Repr

/-- `PlaybackQueueRequestOptions` from `appletv.ts` (the fields the engine
itself populates). -/
structure PlaybackQueueRequestOptions where
  location : Nat
  length : Nat
  artworkSize : Option Size := none
  deriving DecidableEq, Repr

/-- The wire-level params of a playback-queue request after
`requestPlaybackQueueWithWait` flattens `artworkSize` into
`artworkWidth`/`artworkHeight` and adds a fresh `requestID`. -/
structure PlaybackQueueParams where
  location : Nat
  length : Nat
  artworkWidth : Option Int
  artworkHeight : Option Int
  requestID : String
  deriving DecidableEq, Repr

/-- `var params: any = options; params.requestID = uuid(); if
(options.artworkSize) { params.artworkWidth = ...; params.artworkHeight =
...; delete params.artworkSize; }` -/
def buildPlaybackQueueParams (options : PlaybackQueueRequestOptions)
    (requestID : String) : PlaybackQueueParams :=
  { location := options.location
    length := options.length
    artworkWidth := options.artworkSize.map Size.width
    artworkHeight := options.artworkSize.map Size.height
    requestID := requestID }

/-- `ClientUpdatesConfig` from `appletv.ts`. -/
structure ClientUpdatesConfig where
  artworkUpdates : Bool
  nowPlayingUpdates : Bool
  volumeUpdates : Bool
  keyboardUpdates : Bool
  deriving DecidableEq, Repr

/-- `number.UInt16toBufferBE`: a 16-bit value as two big-endian bytes. -/
def UInt16toBufferBE (n : Nat) : List Nat :=
  [n / 256 % 256, n % 256]

/-- Bodies of the typed messages the engine sends. -/
inductive Payload where
  | deviceInfo (uniqueIdentifier : String) (name : String)
  | connectionState (state : String)
  | clientUpdates (config : ClientUpdatesConfig)
  | playbackQueueRequest (params : PlaybackQueueParams)
  | hidEvent (hidEventData : List Nat)
  | wakeDevice
  deriving DecidableEq, Repr

/-- One outbound send through `connection.send(message, waitForResponse,
priority, credentials)`. -/
structure Send where
  msgType : MessageType
  waitForResponse : Bool
  priority : Nat
  creds : Option Credentials
  payload : Payload
  deriving DecidableEq, Repr

/-- The session-engine state relevant to the claims: the `pairingId` and
`credentials` fields of the `AppleTV` object, whether `connection.open()`
has succeeded without a subsequent close, and the trace of outbound
sends in the order they were issued. -/
structure EngineState where
  pairingId : String
  credentials : Option Credentials
  connectionIsOpen : Bool
  sends : List Send
  deriving DecidableEq, Repr

/-- `sendMessage(definitionFilename, messageType, body, waitForResponse)`:
forwards to `connection.send` with the engine's current `this.credentials`
and priority 0. In the trace model the send is appended. -/
def sendMessageS (st : EngineState) (t : MessageType) (p : Payload)
    (wait : Bool) : EngineState :=
  { st with
    sends := st.sends ++
      [{ msgType := t, waitForResponse := wait, priority := 0,
         creds := st.credentials, payload := p }] }

/-- `sendIntroduction()`: a `DeviceInfoMessage` built from the current
`this.pairingId`, sent with `waitForResponse = true`. -/
def sendIntroduction (st : EngineState) : EngineState :=
  sendMessageS st .DeviceInfoMessage (.deviceInfo st.pairingId "node-appletv") true

/-- `sendConnectionState()`: a `SetConnectionStateMessage` with state
`Connected`, sent directly through `connection.send(message, false, 0,
that.credentials)`. -/
def sendConnectionState (st : EngineState) : EngineState :=
  { st with
    sends := st.sends ++
      [{ msgType := .SetConnectionStateMessage, waitForResponse := false,
         priority := 0, creds := st.credentials,
         payload := .connectionState "Connected" }] }

/-- `sendClientUpdatesConfig(config)`: a `ClientUpdatesConfigMessage`,
non-waiting. -/
def sendClientUpdatesConfig (st : EngineState) (config : ClientUpdatesConfig) :
    EngineState :=
  sendMessageS st .ClientUpdatesConfigMessage (.clientUpdates config) false

/-- The two assignments `this.credentials.readKey = keys['readKey'];
this.credentials.writeKey = keys['writeKey'];` applied to the caller's
credentials record. -/
def withKeys (c : Credentials) (keys : Keys) : Credentials :=
  { c with readKey := some keys.readKey, writeKey := some keys.writeKey }

/-- The distinct failure points of `openConnection`, in program order. -/
inductive OpenError where
  | connectError
  | introError
  | verifyError
  | connStateError
  | clientUpdatesError
  deriving DecidableEq, Repr

/-- Oracle for the awaited external steps of `openConnection`: whether
`connection.open()` resolves, whether the introduction's awaited send
resolves, the result of `verifier.verify()` (`none` = rejection), and
whether the two awaited non-waiting sends resolve. -/
structure OpenOracle where
  connOpenOk : Bool
  introOk : Bool
  verifyResult : Option Keys
  connStateOk : Bool
  clientUpdatesOk : Bool
  deriving DecidableEq, Repr

/-- `openConnection(credentials?)`, translated step by step.  Returns the
rejection (if any) together with the engine state at the moment the call
settles; an async TS method that throws leaves `this` exactly as the last
completed statement left it — in particular no `catch`/cleanup block
closes the connection.  A waited send that fails is modelled as
transmitted (the failure is the wait, after the write). -/
def openConnection (st0 : EngineState) (credentials? : Option Credentials)
    (o : OpenOracle) : Option OpenError × EngineState :=
  -- if (credentials) { this.pairingId = credentials.pairingId; }
  let st := match credentials? with
    | some c => { st0 with pairingId := c.pairingId }
    | none => st0
  -- await this.connection.open();
  if o.connOpenOk = false then (some .connectError, st) else
  let st := { st with connectionIsOpen := true }
  -- await this.sendIntroduction();   (uses the *current* this.credentials)
  let st := sendIntroduction st
  if o.introOk = false then (some .introError, st) else
  -- this.credentials = credentials;
  let st := { st with credentials := credentials? }
  match credentials? with
  | none => (none, st)
  | some c =>
    -- let keys = await verifier.verify();
    match o.verifyResult with
    | none => (some .verifyError, st)
    | some keys =>
      -- this.credentials.readKey = keys['readKey'];
      -- this.credentials.writeKey = keys['writeKey'];
      let st := { st with credentials := some (withKeys c keys) }
      -- await this.sendConnectionState();
      let st := sendConnectionState st
      if o.connStateOk = false then (some .connStateError, st) else
      -- await this.sendClientUpdatesConfig({...});
      let st := sendClientUpdatesConfig st
        { nowPlayingUpdates := true, artworkUpdates := true,
          keyboardUpdates := false, volumeUpdates := false }
      if o.clientUpdatesOk = false then (some .clientUpdatesError, st) else
      (none, st)

/-- The rejection `openConnection` produces for a given oracle: always
the error of the first failing step. -/
def expectedOpenError (credentials? : Option Credentials) (o : OpenOracle) :
    Option OpenError :=
  if o.connOpenOk = false then some .connectError
  else if o.introOk = false then some .introError
  else match credentials? with
    | none => none
    | some _ =>
      if o.verifyResult.isNone then some .verifyError
      else if o.connStateOk = false then some .connStateError
      else if o.clientUpdatesOk = false then some .clientUpdatesError
      else none

/-- An oracle on which every step succeeds, verification returning `keys`. -/
def allOk (keys : Keys) : OpenOracle :=
  { connOpenOk := true, introOk := true, verifyResult := some keys,
    connStateOk := true, clientUpdatesOk := true }

/-- `requestPlaybackQueueWithWait(options, waitForResponse)`: builds the
flattened params (with a fresh `requestID`, supplied here explicitly) and
sends a `PlaybackQueueRequestMessage`. -/
def requestPlaybackQueueWithWait (st : EngineState)
    (options : PlaybackQueueRequestOptions) (waitForResponse : Bool)
    (requestID : String) : EngineState :=
  sendMessageS st .PlaybackQueueRequestMessage
    (.playbackQueueRequest (buildPlaybackQueueParams options requestID))
    waitForResponse

/-- One item of an inbound playback queue
(`contentItems[0].artworkData`). -/
structure ContentItem where
  artworkData : Option (List Nat) := none
  deriving DecidableEq, Repr

/-- An inbound `playbackQueue` sub-payload. -/
structure PlaybackQueue where
  contentItems : Option (List ContentItem) := none
  deriving DecidableEq, Repr

/-- One entry of an inbound `supportedCommands.supportedCommands` list;
`enabled`/`canScrub` may be absent on the wire. -/
structure SupportedCommandEntry where
  command : String
  enabled : Option Bool := none
  canScrub : Option Bool := none
  deriving DecidableEq, Repr

/-- The inbound `supportedCommands` sub-payload (its inner list may be
absent, handled by `|| []` in the source). -/
structure SupportedCommandsPayload where
  supportedCommands : Option (List SupportedCommandEntry) := none
  deriving DecidableEq, Repr

/-- An opaque inbound `nowPlayingInfo` sub-payload (only its presence is
inspected by the engine). -/
structure NowPlayingData where
  raw : String
  deriving DecidableEq, Repr

/-- The payload of an inbound message, as far as the engine inspects it
(`message.payload.nowPlayingInfo` / `.supportedCommands` /
`.playbackQueue`). -/
structure StatePayload where
  nowPlayingInfo : Option NowPlayingData := none
  supportedCommands : Option SupportedCommandsPayload := none
  playbackQueue : Option PlaybackQueue := none
  deriving DecidableEq, Repr

/-- An inbound `Message`: its type and (possibly null) payload. -/
structure InMsg where
  type : MessageType
  payload : Option StatePayload := none
  deriving DecidableEq, Repr

/-- Caller-visible errors, separated so that an application-level failure
is distinguishable from a connection fault. -/
inductive AppError where
  | applicationError (msg : String)
  | connectionError (msg : String)
  deriving DecidableEq, Repr

/-- The optional chain `response?.payload?.playbackQueue?.contentItems?.[0]?.artworkData`. -/
def artworkOf (response : InMsg) : Option (List Nat) :=
  ((((response.payload.bind StatePayload.playbackQueue).bind
    PlaybackQueue.contentItems).bind List.head?).bind ContentItem.artworkData)

/-- `requestArtwork(width = 400, height = 400)`: one waited playback-queue
request with `length = 1, location = 0` and the given artwork size; the
inbound response decides the outcome: the first content item's artwork
bytes, or `Error("No artwork available")`. -/
def requestArtwork (st : EngineState) (requestID : String) (response : InMsg)
    (width : Int := 400) (height : Int := 400) :
    EngineState × Except AppError (List Nat) :=
  let st := requestPlaybackQueueWithWait st
    { artworkSize := some { width := width, height := height },
      length := 1, location := 0 } true requestID
  match artworkOf response with
  | some data => (st, .ok data)
  | none => (st, .error (.applicationError "No artwork available"))

/-- The body of the `setInterval` callback installed by `onNewListener`:
if `connection.isOpen`, issue a non-waiting playback-queue refresh
(`length = 100, location = 0, artworkSize = {-1, 368}`), discarding both
resolution and rejection (`.then(() => {}).catch(error => {})`);
otherwise do nothing.  `sendFailed` is the fate of the non-waiting send;
the second component is the tick's surfaced error. -/
def pollTick (st : EngineState) (isOpen : Bool) (requestID : String)
    (_sendFailed : Bool) : EngineState × Option AppError :=
  if isOpen then
    let st := requestPlaybackQueueWithWait st
      { length := 100, location := 0,
        artworkSize := some { width := -1, height := 368 } } false requestID
    (st, none)
  else (st, none)

/-- `AppleTV.Key`. -/
inductive Key where
  | Up | Down | Left | Right | Menu | Play | Pause | Next | Previous
  | Suspend | Select
  deriving DecidableEq, Repr

/-- `Buffer.from('438922cf08020000', 'hex')`. -/
def hidTimeBytes : List Nat := [67, 137, 34, 207, 8, 2, 0, 0]

/-- The fixed middle section of `hidEventData`. -/
def hidMidBytes : List Nat :=
  [0, 0, 0, 0, 0, 0, 0, 0, 1, 0, 0, 0, 0, 0, 0, 0, 2, 0, 0, 0, 32, 0, 0, 0,
   3, 0, 0, 0, 1, 0, 0, 0, 0, 0, 0]

/-- `Buffer.from('0000000000000001000000', 'hex')`. -/
def hidTailBytes : List Nat := [0, 0, 0, 0, 0, 0, 0, 1, 0, 0, 0]

/-- The `hidEventData` buffer of `sendKeyPress`. -/
def hidEventData (usePage usage : Nat) (down : Bool) : List Nat :=
  hidTimeBytes ++ hidMidBytes ++
    (UInt16toBufferBE usePage ++ UInt16toBufferBE usage ++
      UInt16toBufferBE (if down then 1 else 0)) ++
    hidTailBytes

/-- `sendKeyPress(usePage, usage, down)`: one non-waiting
`SendHIDEventMessage`. -/
def sendKeyPress (st : EngineState) (usePage usage : Nat) (down : Bool) :
    EngineState :=
  sendMessageS st .SendHIDEventMessage (.hidEvent (hidEventData usePage usage down))
    false

/-- `sendKeyPressAndRelease(usePage, usage)`: the press send, then — only
once its promise resolves (`.then`) — the release send. -/
def sendKeyPressAndRelease (st : EngineState) (usePage usage : Nat) :
    EngineState :=
  sendKeyPress (sendKeyPress st usePage usage true) usePage usage false

/-- `sendKeyCommand(key)`: the switch mapping each key to its fixed
usage-page/usage pair. -/
def sendKeyCommand (st : EngineState) (key : Key) : EngineState :=
  match key with
  | .Up => sendKeyPressAndRelease st 1 0x8C
  | .Down => sendKeyPressAndRelease st 1 0x8D
  | .Left => sendKeyPressAndRelease st 1 0x8B
  | .Right => sendKeyPressAndRelease st 1 0x8A
  | .Menu => sendKeyPressAndRelease st 1 0x86
  | .Play => sendKeyPressAndRelease st 12 0xB0
  | .Pause => sendKeyPressAndRelease st 12 0xB1
  | .Next => sendKeyPressAndRelease st 12 0xB5
  | .Previous => sendKeyPressAndRelease st 12 0xB6
  | .Suspend => sendKeyPressAndRelease st 1 0x82
  | .Select => sendKeyPressAndRelease st 1 0x89

/-- The usage-page/usage pair the spec's static table assigns to each
key; compared against the switch in `sendKeyCommand`. -/
def keyUsagePair : Key → Nat × Nat
  | .Up => (1, 0x8C)
  | .Down => (1, 0x8D)
  | .Left => (1, 0x8B)
  | .Right => (1, 0x8A)
  | .Menu => (1, 0x86)
  | .Play => (12, 0xB0)
  | .Pause => (12, 0xB1)
  | .Next => (12, 0xB5)
  | .Previous => (12, 0xB6)
  | .Suspend => (1, 0x82)
  | .Select => (1, 0x89)

/-- A `SupportedCommand` value object (`new SupportedCommand(command,
enabled, canScrub)`). -/
structure SupportedCommand where
  command : String
  enabled : Bool
  canScrub : Bool
  deriving DecidableEq, Repr

/-- `(payload.supportedCommands.supportedCommands || []).map(sc => new
SupportedCommand(sc.command, sc.enabled || false, sc.canScrub || false))`. -/
def parseSupportedCommands (p : SupportedCommandsPayload) :
    List SupportedCommand :=
  (p.supportedCommands.getD []).map fun sc =>
    { command := sc.command, enabled := sc.enabled.getD false,
      canScrub := sc.canScrub.getD false }

/-- The notifications `onReceiveMessage` can emit.  `nowPlaying none`
is `emit('nowPlaying', null)`; `nowPlaying (some p)` is
`emit('nowPlaying', new NowPlayingInfo(p))` (the projection wraps the
whole payload). -/
inductive Emitted where
  | message (m : InMsg)
  | nowPlaying (info : Option StatePayload)
  | supportedCommands (cmds : List SupportedCommand)
  | playbackQueue (q : PlaybackQueue)
  deriving DecidableEq, Repr

/-- `onReceiveMessage(message)`: the general re-emit, then — for
`SetStateMessage` only — either the null-payload notification (with an
early `return`) or the three independent presence-guarded emissions, in
source order. -/
def onReceiveMessage (m : InMsg) : List Emitted :=
  [Emitted.message m] ++
    (if m.type = .SetStateMessage then
      match m.payload with
      | none => [Emitted.nowPlaying none]
      | some p =>
        (match p.nowPlayingInfo with
          | some _ => [Emitted.nowPlaying (some p)]
          | none => []) ++
        (match p.supportedCommands with
          | some sc => [Emitted.supportedCommands (parseSupportedCommands sc)]
          | none => []) ++
        (match p.playbackQueue with
          | some q => [Emitted.playbackQueue q]
          | none => [])
    else [])

/-! ## The `messageOfType` wait machinery

A `messageOfType(type, timeout)` call installs one `'message'` listener
and one timer.  The listener resolves the promise and removes itself when
a message of the right type is emitted; the timer rejects the promise and
removes the listener when it fires.  (The timer is never cleared, but a
fire after the promise settled is a no-op since the listener is gone and
a settled promise ignores `reject`.)  JS runs these callbacks one at a
time, so an execution is a sequence of atomic events: an inbound message
being emitted, or one call's timer firing. -/

/-- One pending `messageOfType` wait: its call identity and the type it
matches on. -/
structure Wait where
  id : Nat
  type : MessageType
  deriving DecidableEq, Repr

/-- How a `messageOfType` promise settled. -/
inductive WaitOutcome where
  | resolved (m : InMsg)
  | timedOut
  deriving DecidableEq, Repr

/-- An atomic event of the wait machinery. -/
inductive WaitEv where
  | inbound (m : InMsg)
  | timerFire (id : Nat)
  deriving DecidableEq, Repr

/-- The wait-table state: the live listeners, and the settled outcomes. -/
structure WaitState where
  waits : List Wait
  outcomes : List (Nat × WaitOutcome)
  deriving DecidableEq, Repr

/-- Registering a `messageOfType(type, _)` call: append its listener. -/
def messageOfType (s : WaitState) (id : Nat) (type : MessageType) : WaitState :=
  { s with waits := s.waits ++ [{ id := id, type := type }] }

/-- One atomic event.  An inbound message is offered to every listener in
order; each whose type matches resolves and removes itself.  A timer
firing rejects its own call with the timeout error and removes its
listener — if the listener is already gone, nothing observable happens. -/
def waitStep (s : WaitState) : WaitEv → WaitState
  | .inbound m =>
    { waits := s.waits.filter fun w => ¬ w.type = m.type
      outcomes := s.outcomes ++
        ((s.waits.filter fun w => w.type = m.type).map
          fun w => (w.id, WaitOutcome.resolved m)) }
  | .timerFire id =>
    if (s.waits.filter fun w => w.id = id) = [] then s
    else
      { waits := s.waits.filter fun w => ¬ w.id = id
        outcomes := s.outcomes ++ [(id, WaitOutcome.timedOut)] }

/-- Run a sequence of events. -/
def waitRun (s : WaitState) (evs : List WaitEv) : WaitState :=
  evs.foldl waitStep s

/-- The state neither holds a pending wait for `id` nor has settled one:
the situation before `messageOfType` call `id` is made. -/
def idFree (s : WaitState) (id : Nat) : Prop :=
  (s.waits.filter fun w => w.id = id) = [] ∧
  (s.outcomes.filter fun p => p.1 = id) = []

/-- Call `id` is the unique pending wait for its identity (for type `t`)
and has not settled. -/
def soleWait (s : WaitState) (id : Nat) (t : MessageType) : Prop :=
  (s.waits.filter fun w => w.id = id) = [{ id := id, type := t }] ∧
  (s.outcomes.filter fun p => p.1 = id) = []

/-- Call `id` has settled with the timeout rejection, exactly once, and
its listener is gone. -/
def settledTimedOut (s : WaitState) (id : Nat) : Prop :=
  (s.waits.filter fun w => w.id = id) = [] ∧
  (s.outcomes.filter fun p => p.1 = id) = [(id, WaitOutcome.timedOut)]

/-- An event that neither matches call `id`'s type nor is its own timer:
inbound messages of other types, and other calls' timers. -/
def noTouch (id : Nat) (t : MessageType) : WaitEv → Prop
  | .inbound m => ¬ m.type = t
  | .timerFire j => ¬ j = id

/-- `timeout: number = 5` scaled by `timeout * 1000` for `setTimeout`:
the delay, in milliseconds, before a call's `timerFire` event occurs. -/
def messageOfTypeTimeoutMs (timeout : Nat := 5) : Nat :=
  timeout * 1000

/-! ## The listener-count / polling-task lifecycle

`AppleTV` is an `EventEmitter`; Node emits `'newListener'` *before* a
listener is stored and `'removeListener'` *after* one is removed (and
only when one was actually removed).  The engine's hooks `onNewListener`
and `onRemoveListener` manage `queuePollTimer`.  The model tracks the
listener counts of the two watched events, whether a polling task is
live (`activeTimers`, 0 or 1 in any reachable state), and how many tasks
have ever been started (`tasksStarted`), to express "exactly one". -/

/-- The listener event names that matter to the polling lifecycle. -/
inductive EventKind where
  | nowPlaying
  | supportedCommands
  | message
  | other
  deriving DecidableEq, Repr

/-- `event == 'nowPlaying' || event == 'supportedCommands'`. -/
def watchedEvent : EventKind → Bool
  | .nowPlaying => true
  | .supportedCommands => true
  | _ => false

/-- The emitter-visible state of the polling lifecycle. -/
structure EmitterState where
  nowPlayingCount : Nat
  supportedCommandsCount : Nat
  activeTimers : Nat
  tasksStarted : Nat
  deriving DecidableEq, Repr

/-- `this.listenerCount('nowPlaying') + this.listenerCount('supportedCommands')`. -/
def watchedCount (s : EmitterState) : Nat :=
  s.nowPlayingCount + s.supportedCommandsCount

/-- A fresh `AppleTV`: no listeners, no polling task. -/
def initEmitter : EmitterState :=
  { nowPlayingCount := 0, supportedCommandsCount := 0, activeTimers := 0,
    tasksStarted := 0 }

/-- `onNewListener(event, listener)`: if `queuePollTimer == null` and the
event is watched, `setInterval` a new polling task. -/
def onNewListener (s : EmitterState) (e : EventKind) : EmitterState :=
  if s.activeTimers = 0 ∧ watchedEvent e = true then
    { s with activeTimers := s.activeTimers + 1,
             tasksStarted := s.tasksStarted + 1 }
  else s

/-- `onRemoveListener(event, listener)`: if `queuePollTimer != null`, the
event is watched and the combined watched listener count is now zero,
`clearInterval` the task. -/
def onRemoveListener (s : EmitterState) (e : EventKind) : EmitterState :=
  if 0 < s.activeTimers ∧ watchedEvent e = true ∧ watchedCount s = 0 then
    { s with activeTimers := s.activeTimers - 1 }
  else s

/-- `emitter.on(event, listener)`: Node fires `'newListener'` first, then
stores the listener. -/
def addListener (s : EmitterState) (e : EventKind) : EmitterState :=
  let s := onNewListener s e
  match e with
  | .nowPlaying => { s with nowPlayingCount := s.nowPlayingCount + 1 }
  | .supportedCommands =>
    { s with supportedCommandsCount := s.supportedCommandsCount + 1 }
  | _ => s

/-- `emitter.removeListener(event, listener)`: if a listener of that
event is present, remove it and then fire `'removeListener'`; otherwise
nothing happens. -/
def removeListener (s : EmitterState) (e : EventKind) : EmitterState :=
  match e with
  | .nowPlaying =>
    if 0 < s.nowPlayingCount then
      onRemoveListener { s with nowPlayingCount := s.nowPlayingCount - 1 } e
    else s
  | .supportedCommands =>
    if 0 < s.supportedCommandsCount then
      onRemoveListener { s with supportedCommandsCount := s.supportedCommandsCount - 1 } e
    else s
  | _ => s

/-- A listener-lifecycle operation on the emitter. -/
inductive ListenerOp where
  | add (e : EventKind)
  | remove (e : EventKind)
  deriving DecidableEq, Repr

/-- Apply one listener operation. -/
def applyOp (s : EmitterState) : ListenerOp → EmitterState
  | .add e => addListener s e
  | .remove e => removeListener s e

/-- Apply a sequence of listener operations. -/
def applyOps (s : EmitterState) (ops : List ListenerOp) : EmitterState :=
  ops.foldl applyOp s

/-- The claimed invariant: the polling task exists precisely while some
watched listener is registered — and there is never more than one task. -/
def pollInvariant (s : EmitterState) : Prop :=
  s.activeTimers = if 0 < watchedCount s then 1 else 0

instance (s : EmitterState) : Decidable (pollInvariant s) := by
  unfold pollInvariant
  exact inferInstance

/-- The emitter's listener count for one event name. -/
def eventCount (s : EmitterState) : EventKind → Nat
  | .nowPlaying => s.nowPlayingCount
  | .supportedCommands => s.supportedCommandsCount
  | _ => 0

/-! ## Theorems -/

/-- C2 (as stated, refuted): with the transport open step succeeding and
the introduction step failing, `openConnection` rejects — but the
partially-opened connection is *not* closed: `connectionIsOpen` is still
`true` when the error surfaces.  There is no `catch`/cleanup in
`openConnection`. -/
theorem c2_counterexample_connection_not_closed :
    (openConnection
      { pairingId := "p", credentials := none, connectionIsOpen := false,
        sends := [] } none
      { connOpenOk := true, introOk := false, verifyResult := none,
        connStateOk := true, clientUpdatesOk := true }).1
        = some OpenError.introError ∧
    (openConnection
      { pairingId := "p", credentials := none, connectionIsOpen := false,
        sends := [] } none
      { connOpenOk := true, introOk := false, verifyResult := none,
        connStateOk := true, clientUpdatesOk := true }).2.connectionIsOpen
        = true :=
  ⟨rfl, rfl⟩

/-- C2 (amended): if any step of the handshake fails, `open` rejects with
the originating error (the error of the first failing step), but the
partially-opened connection is left open: whenever the transport open
succeeded, `connectionIsOpen` is still `true` when the error is surfaced
to the caller — `openConnection` performs no cleanup close. -/
theorem c2_open_failure_error_and_connection_left_open :
    ∀ (st : EngineState) (credentials? : Option Credentials) (o : OpenOracle),
      (openConnection st credentials? o).1 = expectedOpenError credentials? o ∧
      (o.connOpenOk = true →
        (openConnection st credentials? o).2.connectionIsOpen = true) := by
  intro st c? o
  obtain ⟨co, io, vr, cs, cu⟩ := o
  cases co <;> cases io <;> cases c? <;> rcases vr with _ | keys <;>
    cases cs <;> cases cu <;>
      simp [openConnection, expectedOpenError, sendIntroduction, sendMessageS,
        sendConnectionState, sendClientUpdatesConfig]

/-- Witness for the amended C2 theorem at a concrete input: verification
fails, the connection stays open. -/
theorem c2_open_failure_witness :
    (openConnection
      { pairingId := "q", credentials := none, connectionIsOpen := false,
        sends := [] } (some { pairingId := "cred" })
      { connOpenOk := true, introOk := true, verifyResult := none,
        connStateOk := true, clientUpdatesOk := true }).2.connectionIsOpen
      = true :=
  (c2_open_failure_error_and_connection_left_open
    { pairingId := "q", credentials := none, connectionIsOpen := false,
      sends := [] } (some { pairingId := "cred" })
    { connOpenOk := true, introOk := true, verifyResult := none,
      connStateOk := true, clientUpdatesOk := true }).2 rfl

/-- C3: a successful `openConnection` with credentials, starting from a
fresh trace, sends exactly the introduction (with the pre-call
credentials), then — after the verification exchange, which sends no
typed message from this path — the connection-state message, then the
client-updates-config message; the derived keys are installed into the
caller's credentials record before the connection-state send (both later
sends carry them) and remain installed in the engine afterwards. -/
theorem c3_open_with_credentials_sequence :
    ∀ (st : EngineState) (c : Credentials) (keys : Keys),
      st.sends = [] →
      (openConnection st (some c) (allOk keys)).1 = none ∧
      (openConnection st (some c) (allOk keys)).2.sends =
        [{ msgType := .DeviceInfoMessage, waitForResponse := true,
           priority := 0, creds := st.credentials,
           payload := .deviceInfo c.pairingId "node-appletv" },
         { msgType := .SetConnectionStateMessage, waitForResponse := false,
           priority := 0, creds := some (withKeys c keys),
           payload := .connectionState "Connected" },
         { msgType := .ClientUpdatesConfigMessage, waitForResponse := false,
           priority := 0, creds := some (withKeys c keys),
           payload := .clientUpdates
             { artworkUpdates := true, nowPlayingUpdates := true,
               volumeUpdates := false, keyboardUpdates := false } }] ∧
      (openConnection st (some c) (allOk keys)).2.credentials =
        some (withKeys c keys) := by
  intro st c keys h
  refine ⟨rfl, ?_, rfl⟩
  simp [openConnection, allOk, sendIntroduction, sendMessageS,
    sendConnectionState, sendClientUpdatesConfig, h]

/-- Witness for C3 at a concrete input. -/
theorem c3_open_with_credentials_witness :
    (openConnection
      { pairingId := "old", credentials := none, connectionIsOpen := false,
        sends := [] } (some { pairingId := "pid" }) (allOk { readKey := 7, writeKey := 9 })).2.sends
      = [{ msgType := .DeviceInfoMessage, waitForResponse := true,
           priority := 0, creds := none,
           payload := .deviceInfo "pid" "node-appletv" },
         { msgType := .SetConnectionStateMessage, waitForResponse := false,
           priority := 0,
           creds := some { pairingId := "pid", readKey := some 7, writeKey := some 9 },
           payload := .connectionState "Connected" },
         { msgType := .ClientUpdatesConfigMessage, waitForResponse := false,
           priority := 0,
           creds := some { pairingId := "pid", readKey := some 7, writeKey := some 9 },
           payload := .clientUpdates
             { artworkUpdates := true, nowPlayingUpdates := true,
               volumeUpdates := false, keyboardUpdates := false } }] :=
  (c3_open_with_credentials_sequence
    { pairingId := "old", credentials := none, connectionIsOpen := false,
      sends := [] } { pairingId := "pid" } { readKey := 7, writeKey := 9 }
    rfl).2.1

/-- C4: a successful `openConnection` without credentials, starting from
a fresh trace, sends exactly one message, the `DeviceInfoMessage`
introduction; no connection-state or client-updates-config message is
sent. -/
theorem c4_open_without_credentials_single_introduction :
    ∀ (st : EngineState) (o : OpenOracle),
      st.sends = [] → o.connOpenOk = true → o.introOk = true →
      (openConnection st none o).1 = none ∧
      (openConnection st none o).2.sends =
        [{ msgType := .DeviceInfoMessage, waitForResponse := true,
           priority := 0, creds := st.credentials,
           payload := .deviceInfo st.pairingId "node-appletv" }] := by
  intro st o h hco hio
  obtain ⟨co, io, vr, cs, cu⟩ := o
  simp only at hco hio
  subst hco hio
  simp [openConnection, sendIntroduction, sendMessageS, h]

/-- Witness for C4 at a concrete input. -/
theorem c4_open_without_credentials_witness :
    (openConnection
      { pairingId := "p4", credentials := none, connectionIsOpen := false,
        sends := [] } none
      { connOpenOk := true, introOk := true, verifyResult := none,
        connStateOk := true, clientUpdatesOk := true }).2.sends
      = [{ msgType := .DeviceInfoMessage, waitForResponse := true,
           priority := 0, creds := none,
           payload := .deviceInfo "p4" "node-appletv" }] :=
  (c4_open_without_credentials_single_introduction
    { pairingId := "p4", credentials := none, connectionIsOpen := false,
      sends := [] }
    { connOpenOk := true, introOk := true, verifyResult := none,
      connStateOk := true, clientUpdatesOk := true } rfl rfl rfl).2

/-- C10: whenever the transport open succeeds, the introduction send
carries the *pre-call* value of the engine's `credentials` field (so a
first open sends it unencrypted), because `this.credentials = credentials`
runs only after the introduction's await resolves: if the introduction
step fails, the stored field is unchanged; and once it resolves, a call
without a credentials argument resets the stored field to `undefined`
even if a previous open had installed credentials. -/
theorem c10_credentials_assigned_after_introduction :
    ∀ (st : EngineState) (credentials? : Option Credentials) (o : OpenOracle),
      st.sends = [] → o.connOpenOk = true →
      ((openConnection st credentials? o).2.sends.head? = some
        { msgType := .DeviceInfoMessage, waitForResponse := true,
          priority := 0, creds := st.credentials,
          payload := .deviceInfo
            (match credentials? with
              | some c => c.pairingId
              | none => st.pairingId) "node-appletv" }) ∧
      (o.introOk = false →
        (openConnection st credentials? o).2.credentials = st.credentials) ∧
      (o.introOk = true → credentials? = none →
        (openConnection st credentials? o).2.credentials = none) := by
  intro st c? o h hco
  obtain ⟨co, io, vr, cs, cu⟩ := o
  simp only at hco
  subst hco
  cases io <;> cases c? <;> rcases vr with _ | keys <;>
    cases cs <;> cases cu <;>
      simp [openConnection, sendIntroduction, sendMessageS,
        sendConnectionState, sendClientUpdatesConfig, h]

/-- Witness for C10 at a concrete input: a credential-less re-open resets
the stored credentials and the introduction went out with the previously
stored (stale) credentials. -/
theorem c10_credentials_assigned_witness :
    ((openConnection
      { pairingId := "p10", credentials := some { pairingId := "stale" },
        connectionIsOpen := false, sends := [] } none
      { connOpenOk := true, introOk := true, verifyResult := none,
        connStateOk := true, clientUpdatesOk := true }).2.sends.head? = some
        { msgType := .DeviceInfoMessage, waitForResponse := true,
          priority := 0, creds := some { pairingId := "stale" },
          payload := .deviceInfo "p10" "node-appletv" }) ∧
    ((openConnection
      { pairingId := "p10", credentials := some { pairingId := "stale" },
        connectionIsOpen := false, sends := [] } none
      { connOpenOk := true, introOk := true, verifyResult := none,
        connStateOk := true, clientUpdatesOk := true }).2.credentials = none) :=
  ⟨(c10_credentials_assigned_after_introduction
      { pairingId := "p10", credentials := some { pairingId := "stale" },
        connectionIsOpen := false, sends := [] } none
      { connOpenOk := true, introOk := true, verifyResult := none,
        connStateOk := true, clientUpdatesOk := true } rfl rfl).1,
   (c10_credentials_assigned_after_introduction
      { pairingId := "p10", credentials := some { pairingId := "stale" },
        connectionIsOpen := false, sends := [] } none
      { connOpenOk := true, introOk := true, verifyResult := none,
        connStateOk := true, clientUpdatesOk := true } rfl rfl).2.2 rfl rfl⟩

/-- C5: `requestArtwork(w, h)` issues exactly one waited playback-queue
request whose params carry `artworkWidth = w`, `artworkHeight = h`,
`length = 1`, `location = 0` (with `w = h = 400` when the arguments are
omitted); it resolves to the first content item's artwork bytes when the
response carries them, and otherwise rejects with the application-level
"No artwork available" error — never with a connection fault. -/
theorem c5_requestArtwork_request_and_outcome :
    ∀ (st : EngineState) (requestID : String) (response : InMsg) (w h : Int),
      (requestArtwork st requestID response w h).1.sends = st.sends ++
        [{ msgType := .PlaybackQueueRequestMessage, waitForResponse := true,
           priority := 0, creds := st.credentials,
           payload := .playbackQueueRequest
             { location := 0, length := 1, artworkWidth := some w,
               artworkHeight := some h, requestID := requestID } }] ∧
      (∀ data, artworkOf response = some data →
        (requestArtwork st requestID response w h).2 = .ok data) ∧
      (artworkOf response = none →
        (requestArtwork st requestID response w h).2 =
          .error (.applicationError "No artwork available")) ∧
      requestArtwork st requestID response =
        requestArtwork st requestID response 400 400 := by
  intro st requestID response w h
  refine ⟨?_, ?_, ?_, rfl⟩
  · cases ha : artworkOf response <;>
      simp [requestArtwork, requestPlaybackQueueWithWait,
        buildPlaybackQueueParams, sendMessageS, ha]
  · intro data hd
    simp [requestArtwork, hd]
  · intro hn
    simp [requestArtwork, hn]

/-- Witness for C5: a response carrying artwork resolves to its bytes; a
response without one rejects with the application error; the request
payload is as claimed. -/
theorem c5_requestArtwork_witness :
    (requestArtwork
      { pairingId := "p5", credentials := none, connectionIsOpen := true,
        sends := [] } "rid" { type := .SetStateMessage } 640 480).1.sends =
      [{ msgType := .PlaybackQueueRequestMessage, waitForResponse := true,
         priority := 0, creds := none,
         payload := .playbackQueueRequest
           { location := 0, length := 1, artworkWidth := some 640,
             artworkHeight := some 480, requestID := "rid" } }] ∧
    (requestArtwork
      { pairingId := "p5", credentials := none, connectionIsOpen := true,
        sends := [] } "rid"
      (⟨.SetStateMessage, some ⟨none, none, some ⟨some [⟨some [1, 2, 3]⟩]⟩⟩⟩ : InMsg)
      640 480).2 = .ok [1, 2, 3] ∧
    (requestArtwork
      { pairingId := "p5", credentials := none, connectionIsOpen := true,
        sends := [] } "rid" { type := .SetStateMessage } 640 480).2 =
      .error (.applicationError "No artwork available") :=
  ⟨(c5_requestArtwork_request_and_outcome
      { pairingId := "p5", credentials := none, connectionIsOpen := true,
        sends := [] } "rid" { type := .SetStateMessage } 640 480).1,
   (c5_requestArtwork_request_and_outcome
      { pairingId := "p5", credentials := none, connectionIsOpen := true,
        sends := [] } "rid"
      (⟨.SetStateMessage, some ⟨none, none, some ⟨some [⟨some [1, 2, 3]⟩]⟩⟩⟩ : InMsg)
      640 480).2.1 [1, 2, 3] rfl,
   (c5_requestArtwork_request_and_outcome
      { pairingId := "p5", credentials := none, connectionIsOpen := true,
        sends := [] } "rid" { type := .SetStateMessage } 640 480).2.2.1 rfl⟩

/-- C6: for every defined key, `sendKeyCommand` issues exactly two
non-waiting `SendHIDEventMessage` sends — the press, then (only after
the press send's promise resolves, which the sequential composition
models) the release — both carrying the key's fixed usage-page/usage
pair, big-endian-encoded inside the HID event buffer; and the pair table
matches the spec's listed mappings. -/
theorem c6_sendKeyCommand_press_then_release :
    ∀ (st : EngineState) (key : Key),
      (sendKeyCommand st key).sends = st.sends ++
        [{ msgType := .SendHIDEventMessage, waitForResponse := false,
           priority := 0, creds := st.credentials,
           payload := .hidEvent
             (hidEventData (keyUsagePair key).1 (keyUsagePair key).2 true) },
         { msgType := .SendHIDEventMessage, waitForResponse := false,
           priority := 0, creds := st.credentials,
           payload := .hidEvent
             (hidEventData (keyUsagePair key).1 (keyUsagePair key).2 false) }] ∧
      keyUsagePair .Up = (1, 0x8C) ∧ keyUsagePair .Down = (1, 0x8D) ∧
      keyUsagePair .Left = (1, 0x8B) ∧ keyUsagePair .Right = (1, 0x8A) ∧
      keyUsagePair .Menu = (1, 0x86) ∧ keyUsagePair .Play = (12, 0xB0) ∧
      keyUsagePair .Pause = (12, 0xB1) ∧ keyUsagePair .Select = (1, 0x89) := by
  intro st key
  refine ⟨?_, rfl, rfl, rfl, rfl, rfl, rfl, rfl, rfl⟩
  cases key <;>
    simp [sendKeyCommand, sendKeyPressAndRelease, sendKeyPress, sendMessageS,
      keyUsagePair]

/-- C9: a polling tick issues its non-waiting playback-queue refresh if
and only if the connection is open at that tick; a tick on a closed
connection changes nothing (in particular nothing is queued for later),
and the tick never surfaces an error whatever the fate of the send. -/
theorem c9_pollTick_only_when_open :
    ∀ (st : EngineState) (isOpen : Bool) (requestID : String)
      (sendFailed : Bool),
      (isOpen = true →
        (pollTick st isOpen requestID sendFailed).1.sends = st.sends ++
          [{ msgType := .PlaybackQueueRequestMessage, waitForResponse := false,
             priority := 0, creds := st.credentials,
             payload := .playbackQueueRequest
               { location := 0, length := 100, artworkWidth := some (-1),
                 artworkHeight := some 368, requestID := requestID } }]) ∧
      (isOpen = false → (pollTick st isOpen requestID sendFailed).1 = st) ∧
      (pollTick st isOpen requestID sendFailed).2 = none := by
  intro st isOpen requestID sendFailed
  cases isOpen <;>
    simp [pollTick, requestPlaybackQueueWithWait, buildPlaybackQueueParams,
      sendMessageS]

/-- Witness for C9: an open-connection tick sends the refresh even when
the send fails, surfacing nothing; a closed-connection tick is a no-op. -/
theorem c9_pollTick_witness :
    (pollTick
      { pairingId := "p9", credentials := none, connectionIsOpen := true,
        sends := [] } true "rid9" true).1.sends =
      [{ msgType := .PlaybackQueueRequestMessage, waitForResponse := false,
         priority := 0, creds := none,
         payload := .playbackQueueRequest
           { location := 0, length := 100, artworkWidth := some (-1),
             artworkHeight := some 368, requestID := "rid9" } }] ∧
    (pollTick
      { pairingId := "p9", credentials := none, connectionIsOpen := false,
        sends := [] } false "rid9" true).1 =
      { pairingId := "p9", credentials := none, connectionIsOpen := false,
        sends := [] } ∧
    (pollTick
      { pairingId := "p9", credentials := none, connectionIsOpen := true,
        sends := [] } true "rid9" true).2 = none :=
  ⟨(c9_pollTick_only_when_open
      { pairingId := "p9", credentials := none, connectionIsOpen := true,
        sends := [] } true "rid9" true).1 rfl,
   (c9_pollTick_only_when_open
      { pairingId := "p9", credentials := none, connectionIsOpen := false,
        sends := [] } false "rid9" true).2.1 rfl,
   (c9_pollTick_only_when_open
      { pairingId := "p9", credentials := none, connectionIsOpen := true,
        sends := [] } true "rid9" true).2.2⟩

/-- C7: every inbound message is re-emitted as a general `message`
notification (always first); a message that is not a `SetStateMessage`
produces nothing else; a `SetStateMessage` with a null payload produces
exactly one additional `nowPlaying` notification carrying null and
nothing else; and otherwise each of the now-playing, supported-commands,
and playback-queue projections is emitted if and only if its sub-payload
is present in that particular message. -/
theorem c7_onReceiveMessage_dispatch :
    ∀ (m : InMsg),
      (onReceiveMessage m).head? = some (.message m) ∧
      (¬ m.type = .SetStateMessage → onReceiveMessage m = [.message m]) ∧
      (m.type = .SetStateMessage → m.payload = none →
        onReceiveMessage m = [.message m, .nowPlaying none]) ∧
      (∀ p, m.type = .SetStateMessage → m.payload = some p →
        ((Emitted.nowPlaying (some p) ∈ onReceiveMessage m) ↔
          p.nowPlayingInfo.isSome = true) ∧
        ((∃ cmds, Emitted.supportedCommands cmds ∈ onReceiveMessage m) ↔
          p.supportedCommands.isSome = true) ∧
        (∀ sc, p.supportedCommands = some sc →
          Emitted.supportedCommands (parseSupportedCommands sc) ∈
            onReceiveMessage m) ∧
        ((∃ q, Emitted.playbackQueue q ∈ onReceiveMessage m) ↔
          p.playbackQueue.isSome = true) ∧
        (∀ q, p.playbackQueue = some q →
          Emitted.playbackQueue q ∈ onReceiveMessage m)) := by
  intro m
  obtain ⟨t, pl⟩ := m
  by_cases ht : t = MessageType.SetStateMessage
  · subst ht
    rcases pl with _ | p
    · simp [onReceiveMessage]
    · obtain ⟨np, sc, pq⟩ := p
      rcases np with _ | np <;> rcases sc with _ | sc <;> rcases pq with _ | pq <;>
        simp [onReceiveMessage]
  · cases t <;> simp_all [onReceiveMessage]

/-- Witness for C7: a state message with all three sub-payloads emits all
three projections; a state message with null payload emits exactly the
null `nowPlaying`; a non-state message emits only `message`. -/
theorem c7_onReceiveMessage_witness :
    Emitted.supportedCommands
      (parseSupportedCommands ⟨some [⟨"cmd", some true, none⟩]⟩) ∈
      onReceiveMessage
        ⟨.SetStateMessage,
          some ⟨some ⟨"np"⟩, some ⟨some [⟨"cmd", some true, none⟩]⟩,
            some ⟨none⟩⟩⟩ ∧
    onReceiveMessage ⟨.SetStateMessage, none⟩ =
      [.message ⟨.SetStateMessage, none⟩, .nowPlaying none] ∧
    onReceiveMessage ⟨.DeviceInfoMessage, none⟩ =
      [.message ⟨.DeviceInfoMessage, none⟩] :=
  ⟨((c7_onReceiveMessage_dispatch
      ⟨.SetStateMessage,
        some ⟨some ⟨"np"⟩, some ⟨some [⟨"cmd", some true, none⟩]⟩,
          some ⟨none⟩⟩⟩).2.2.2
      ⟨some ⟨"np"⟩, some ⟨some [⟨"cmd", some true, none⟩]⟩, some ⟨none⟩⟩
      rfl rfl).2.2.1 ⟨some [⟨"cmd", some true, none⟩]⟩ rfl,
   (c7_onReceiveMessage_dispatch ⟨.SetStateMessage, none⟩).2.2.1 rfl rfl,
   (c7_onReceiveMessage_dispatch ⟨.DeviceInfoMessage, none⟩).2.1 (by decide)⟩

/-- Every single listener operation preserves the polling invariant. -/
theorem pollInvariant_applyOp (s : EmitterState) (op : ListenerOp)
    (h : pollInvariant s) : pollInvariant (applyOp s op) := by
  obtain ⟨np, sc, act, ts⟩ := s
  simp only [pollInvariant, watchedCount] at h ⊢
  rcases op with e | e <;> cases e <;>
    simp only [applyOp, addListener, removeListener, onNewListener,
      onRemoveListener, watchedEvent, watchedCount] <;>
    split_ifs at h ⊢ <;> simp_all

/-- The polling invariant holds after any listener-operation sequence. -/
theorem pollInvariant_applyOps (ops : List ListenerOp) :
    ∀ s : EmitterState, pollInvariant s → pollInvariant (applyOps s ops) := by
  induction ops with
  | nil => intro s h; exact h
  | cons op rest ih =>
    intro s h
    exact ih (applyOp s op) (pollInvariant_applyOp s op h)

/-- C1: in every state reachable from a fresh engine by listener
additions and removals, the polling task exists (and is unique) if and
only if the combined count of `nowPlaying` and `supportedCommands`
listeners is positive; moreover adding the first watched listener starts
exactly one task, adding any further listener while one watched listener
exists starts none, removing a listener while another watched listener
remains keeps the task, and removing the last watched listener stops
it. -/
theorem c1_polling_task_iff_watched_listeners :
    (∀ ops : List ListenerOp, pollInvariant (applyOps initEmitter ops)) ∧
    (∀ (s : EmitterState) (e : EventKind), pollInvariant s →
      watchedEvent e = true → watchedCount s = 0 →
      (applyOp s (.add e)).activeTimers = 1 ∧
      (applyOp s (.add e)).tasksStarted = s.tasksStarted + 1) ∧
    (∀ (s : EmitterState) (e : EventKind), pollInvariant s →
      0 < watchedCount s →
      (applyOp s (.add e)).activeTimers = 1 ∧
      (applyOp s (.add e)).tasksStarted = s.tasksStarted) ∧
    (∀ (s : EmitterState) (e : EventKind), pollInvariant s →
      1 < watchedCount s →
      (applyOp s (.remove e)).activeTimers = 1 ∧
      (applyOp s (.remove e)).tasksStarted = s.tasksStarted) ∧
    (∀ (s : EmitterState) (e : EventKind), pollInvariant s →
      watchedCount s = 1 → eventCount s e = 1 →
      (applyOp s (.remove e)).activeTimers = 0) := by
  refine ⟨fun ops => pollInvariant_applyOps ops initEmitter (by decide),
    ?_, ?_, ?_, ?_⟩
  · intro s e h h1 h2
    obtain ⟨np, sc, act, ts⟩ := s
    simp only [pollInvariant, watchedCount] at h h2
    cases e <;> simp [watchedEvent] at h1 <;>
      simp only [applyOp, addListener, onNewListener, watchedEvent] <;>
      split_ifs at h ⊢ <;> simp_all
  · intro s e h h1
    obtain ⟨np, sc, act, ts⟩ := s
    simp only [pollInvariant, watchedCount] at h h1
    cases e <;>
      simp only [applyOp, addListener, onNewListener, watchedEvent] <;>
      split_ifs at h ⊢ <;> simp_all
  · intro s e h h1
    obtain ⟨np, sc, act, ts⟩ := s
    simp only [pollInvariant, watchedCount] at h h1
    cases e <;>
      simp only [applyOp, removeListener, onRemoveListener, watchedEvent,
        watchedCount] <;>
      split_ifs at h ⊢ <;> simp_all <;> omega
  · intro s e h h1 h2
    obtain ⟨np, sc, act, ts⟩ := s
    simp only [pollInvariant, watchedCount] at h h1
    cases e <;> simp [eventCount] at h2 <;>
      simp only [applyOp, removeListener, onRemoveListener, watchedEvent,
        watchedCount] <;>
      split_ifs at h ⊢ <;> simp_all

/-- Witness for C1's transition clauses at concrete states: the first
watched listener starts the task, a second does not start another,
removing one of two keeps it, removing the last stops it. -/
theorem c1_polling_task_witness :
    ((applyOp ⟨0, 0, 0, 0⟩ (.add .nowPlaying)).activeTimers = 1 ∧
      (applyOp ⟨0, 0, 0, 0⟩ (.add .nowPlaying)).tasksStarted = 0 + 1) ∧
    ((applyOp ⟨1, 0, 1, 1⟩ (.add .supportedCommands)).activeTimers = 1 ∧
      (applyOp ⟨1, 0, 1, 1⟩ (.add .supportedCommands)).tasksStarted = 1) ∧
    ((applyOp ⟨1, 1, 1, 1⟩ (.remove .nowPlaying)).activeTimers = 1 ∧
      (applyOp ⟨1, 1, 1, 1⟩ (.remove .nowPlaying)).tasksStarted = 1) ∧
    ((applyOp ⟨1, 0, 1, 1⟩ (.remove .nowPlaying)).activeTimers = 0) :=
  ⟨c1_polling_task_iff_watched_listeners.2.1 ⟨0, 0, 0, 0⟩ .nowPlaying
      (by decide) (by decide) (by decide),
   c1_polling_task_iff_watched_listeners.2.2.1 ⟨1, 0, 1, 1⟩ .supportedCommands
      (by decide) (by decide),
   c1_polling_task_iff_watched_listeners.2.2.2.1 ⟨1, 1, 1, 1⟩ .nowPlaying
      (by decide) (by decide),
   c1_polling_task_iff_watched_listeners.2.2.2.2 ⟨1, 0, 1, 1⟩ .nowPlaying
      (by decide) (by decide) (by decide)⟩

/-- A filter of a sublist of a list whose filter is empty is empty. -/
theorem sub_filter_nil {α : Type} {p : α → Bool} {l l' : List α}
    (hs : List.Sublist l l') (h : l'.filter p = []) : l.filter p = [] :=
  List.sublist_nil.mp (h ▸ List.Sublist.filter p hs)

/-- An inbound message resolves only calls that were pending: if no wait
carries `id`, the outcomes it appends never mention `id`. -/
theorem mapped_outcomes_filter_nil (s : WaitState) (id : Nat) (m : InMsg)
    (hw : (s.waits.filter fun w => w.id = id) = []) :
    (((s.waits.filter fun w => w.type = m.type).map
      fun w => (w.id, WaitOutcome.resolved m)).filter fun p => p.1 = id) = [] := by
  rw [List.filter_eq_nil_iff]
  rintro ⟨i, oc⟩ hmem
  rw [List.mem_map] at hmem
  obtain ⟨w, hwmem, heq⟩ := hmem
  rw [List.mem_filter] at hwmem
  obtain ⟨hw1, _⟩ := hwmem
  cases heq
  simp only [decide_eq_true_eq]
  intro hid
  have hin : w ∈ s.waits.filter fun w => w.id = id := by
    rw [List.mem_filter]
    exact ⟨hw1, by simpa using hid⟩
  rw [hw] at hin
  cases hin

/-- A firing timer removes exactly the waits of its own call, leaving
every other pending wait in place. -/
theorem waitStep_timerFire_waits (s : WaitState) (id : Nat) :
    (waitStep s (.timerFire id)).waits =
      s.waits.filter fun w => ¬ w.id = id := by
  simp only [waitStep]
  split_ifs with hif
  · refine (List.filter_eq_self.mpr ?_).symm
    intro w hwmem
    rw [List.filter_eq_nil_iff] at hif
    simpa using hif w hwmem
  · rfl

/-- A call identity absent from the table stays absent under any event. -/
theorem idFree_waitStep (s : WaitState) (id : Nat) (ev : WaitEv)
    (h : idFree s id) : idFree (waitStep s ev) id := by
  obtain ⟨hw, ho⟩ := h
  cases ev with
  | inbound m =>
    constructor
    · exact sub_filter_nil (List.filter_sublist s.waits) hw
    · simp only [waitStep, List.filter_append, ho, List.nil_append]
      exact mapped_outcomes_filter_nil s id m hw
  | timerFire j =>
    simp only [waitStep]
    split_ifs with hif
    · exact ⟨hw, ho⟩
    · constructor
      · exact sub_filter_nil (List.filter_sublist s.waits) hw
      · simp only [List.filter_append, ho, List.nil_append]
        have hji : ¬ j = id := by
          intro hji
          subst hji
          exact hif hw
        simp [hji]

/-- Registering a fresh `messageOfType` call makes it the sole pending
wait of its identity. -/
theorem soleWait_messageOfType (s : WaitState) (id : Nat) (t : MessageType)
    (h : idFree s id) : soleWait (messageOfType s id t) id t := by
  obtain ⟨hw, ho⟩ := h
  constructor
  · simp only [messageOfType, List.filter_append, hw, List.nil_append]
    simp
  · exact ho

/-- An event that neither matches the call's type nor is its own timer
leaves the call pending and unsettled. -/
theorem soleWait_waitStep (s : WaitState) (id : Nat) (t : MessageType)
    (ev : WaitEv) (h : soleWait s id t) (hnt : noTouch id t ev) :
    soleWait (waitStep s ev) id t := by
  obtain ⟨hw, ho⟩ := h
  cases ev with
  | inbound m =>
    simp only [noTouch] at hnt
    constructor
    · simp only [waitStep]
      rw [List.filter_comm, hw]
      have : ¬ t = m.type := fun ht => hnt (ht ▸ rfl)
      simp [this]
    · simp only [waitStep, List.filter_append, ho, List.nil_append]
      rw [List.filter_eq_nil_iff]
      rintro ⟨i, oc⟩ hmem
      rw [List.mem_map] at hmem
      obtain ⟨w, hwmem, heq⟩ := hmem
      rw [List.mem_filter] at hwmem
      obtain ⟨hw1, hwtype⟩ := hwmem
      cases heq
      simp only [decide_eq_true_eq]
      intro hid
      have hin : w ∈ s.waits.filter fun w => w.id = id := by
        rw [List.mem_filter]
        exact ⟨hw1, by simpa using hid⟩
      rw [hw] at hin
      have : w = { id := id, type := t } := by simpa using hin
      subst this
      simp only [decide_eq_true_eq] at hwtype
      exact hnt (hwtype ▸ rfl)
  | timerFire j =>
    simp only [noTouch] at hnt
    simp only [waitStep]
    split_ifs with hif
    · exact ⟨hw, ho⟩
    · constructor
      · rw [List.filter_comm, hw]
        have hij : ¬ id = j := fun h => hnt h.symm
        simp [hij]
      · simp only [List.filter_append, ho, List.nil_append]
        simp [hnt]

/-- The call's own timer firing while it is pending settles it with the
timeout rejection and removes its listener. -/
theorem settledTimedOut_of_timerFire (s : WaitState) (id : Nat)
    (t : MessageType) (h : soleWait s id t) :
    settledTimedOut (waitStep s (.timerFire id)) id := by
  obtain ⟨hw, ho⟩ := h
  simp only [waitStep]
  split_ifs with hif
  · rw [hw] at hif
    cases hif
  · constructor
    · rw [List.filter_comm, hw]
      simp
    · simp only [List.filter_append, ho, List.nil_append]
      simp

/-- Once settled by timeout, a call stays settled exactly once: no later
event resolves it again or produces a second outcome for it. -/
theorem settledTimedOut_waitStep (s : WaitState) (id : Nat) (ev : WaitEv)
    (h : settledTimedOut s id) : settledTimedOut (waitStep s ev) id := by
  obtain ⟨hw, ho⟩ := h
  cases ev with
  | inbound m =>
    constructor
    · exact sub_filter_nil (List.filter_sublist s.waits) hw
    · simp only [waitStep, List.filter_append, ho]
      rw [mapped_outcomes_filter_nil s id m hw]
      simp
  | timerFire j =>
    simp only [waitStep]
    split_ifs with hif
    · exact ⟨hw, ho⟩
    · have hji : ¬ j = id := by
        intro hji
        subst hji
        exact hif hw
      constructor
      · exact sub_filter_nil (List.filter_sublist s.waits) hw
      · simp only [List.filter_append, ho]
        simp [hji]

/-- `idFree` is preserved by whole event runs. -/
theorem idFree_waitRun (evs : List WaitEv) :
    ∀ (s : WaitState) (id : Nat), idFree s id → idFree (waitRun s evs) id := by
  induction evs with
  | nil => intro s id h; exact h
  | cons ev rest ih =>
    intro s id h
    exact ih (waitStep s ev) id (idFree_waitStep s id ev h)

/-- `soleWait` is preserved by runs of non-touching events. -/
theorem soleWait_waitRun (evs : List WaitEv) :
    ∀ (s : WaitState) (id : Nat) (t : MessageType), soleWait s id t →
      (∀ ev ∈ evs, noTouch id t ev) → soleWait (waitRun s evs) id t := by
  induction evs with
  | nil => intro s id t h _; exact h
  | cons ev rest ih =>
    intro s id t h hnt
    exact ih (waitStep s ev) id t
      (soleWait_waitStep s id t ev h (hnt ev (List.mem_cons_self ev rest)))
      (fun e he => hnt e (List.mem_cons_of_mem ev he))

/-- `settledTimedOut` is preserved by whole event runs. -/
theorem settledTimedOut_waitRun (evs : List WaitEv) :
    ∀ (s : WaitState) (id : Nat), settledTimedOut s id →
      settledTimedOut (waitRun s evs) id := by
  induction evs with
  | nil => intro s id h; exact h
  | cons ev rest ih =>
    intro s id h
    exact ih (waitStep s ev) id (settledTimedOut_waitStep s id ev h)

/-- Runs split over list append. -/
theorem waitRun_append (s : WaitState) (a b : List WaitEv) :
    waitRun s (a ++ b) = waitRun (waitRun s a) b :=
  List.foldl_append waitStep s a b

/-- C8: the timer delay defaults to 5 seconds; a firing timer removes
only its own call's wait; a call registered in a state free of its
identity, after any run of events in which no message of its type
arrives and then its timer fires, is settled exactly once — with the
timeout rejection — and its listener is removed, whatever happens
afterwards; and a call identity absent from the table is never settled
by any run, so only messages received after the call can satisfy it. -/
theorem c8_messageOfType_timeout_and_isolation :
    messageOfTypeTimeoutMs 5 = 5000 ∧
    (∀ (s : WaitState) (id : Nat),
      (waitStep s (.timerFire id)).waits =
        s.waits.filter (fun w => ¬ w.id = id) ∧
      ((waitStep s (.timerFire id)).outcomes = s.outcomes ∨
        (waitStep s (.timerFire id)).outcomes =
          s.outcomes ++ [(id, WaitOutcome.timedOut)])) ∧
    (∀ (s : WaitState) (id : Nat) (evs : List WaitEv),
      idFree s id → idFree (waitRun s evs) id) ∧
    (∀ (s : WaitState) (id : Nat) (t : MessageType) (evs1 evs2 : List WaitEv),
      idFree s id → (∀ ev ∈ evs1, noTouch id t ev) →
      settledTimedOut
        (waitRun (messageOfType s id t) (evs1 ++ .timerFire id :: evs2)) id) := by
  refine ⟨rfl, ?_, fun s id evs => idFree_waitRun evs s id, ?_⟩
  · intro s id
    refine ⟨waitStep_timerFire_waits s id, ?_⟩
    simp only [waitStep]
    split_ifs
    · exact Or.inl rfl
    · exact Or.inr rfl
  · intro s id t evs1 evs2 hfree hnt
    rw [waitRun_append]
    exact settledTimedOut_waitRun evs2 _ id
      (settledTimedOut_of_timerFire _ id t
        (soleWait_waitRun evs1 (messageOfType s id t) id t
          (soleWait_messageOfType s id t hfree) hnt))

/-- Witness for C8 at a concrete run: with another call (id 1, waiting
for a state message) pending, call 2 waits for a device-info message; a
state message arrives (resolving call 1, not call 2), then call 2's
timer fires: call 2 is settled exactly once, by timeout, and removed;
the full table shows call 1's resolution was unaffected. -/
theorem c8_messageOfType_timeout_witness :
    settledTimedOut
      (waitRun
        (messageOfType ⟨[⟨1, .SetStateMessage⟩], []⟩ 2 .DeviceInfoMessage)
        ([.inbound ⟨.SetStateMessage, none⟩] ++ .timerFire 2 :: [])) 2 ∧
    (waitRun
        (messageOfType ⟨[⟨1, .SetStateMessage⟩], []⟩ 2 .DeviceInfoMessage)
        ([.inbound ⟨.SetStateMessage, none⟩] ++ .timerFire 2 :: [])).outcomes =
      [(1, .resolved ⟨.SetStateMessage, none⟩), (2, .timedOut)] :=
  ⟨c8_messageOfType_timeout_and_isolation.2.2.2
    ⟨[⟨1, .SetStateMessage⟩], []⟩
    2 .DeviceInfoMessage [.inbound ⟨.SetStateMessage, none⟩] []
    ⟨rfl, rfl⟩
    (by
      intro ev hev
      rw [List.mem_singleton] at hev
      subst hev
      simp [noTouch]),
   by decide⟩

end AppleTVSpec
